import Mathlib

/-!
Verification of the edit-session engine of `pgsqltoolsservice`
(`pgsqltoolsservice/edit_data/data_editor_session.py`).

The Python module is shallowly embedded: the mutable `DataEditorSession`
object becomes a state record threaded explicitly through the operations,
Python exceptions become an `Except PyErr` result (assignments to `self`
performed before a raise are kept in the returned state, matching Python's
semantics where mutations persist across a caught exception), and the
caller-supplied `on_success` / `on_failure` callbacks are recorded as a
list of `CallEvent`s in invocation order.

External collaborators that are not part of the translated source file
(`RowUpdate` from `update_management`, `ResultSetSubset.from_result_set`,
`EditTableMetadata.extend`) are modelled from the specification's collaborator
contracts; each such definition carries a doc comment saying so.
-/

namespace PgEdit

/-- The kinds of Python exceptions the embedded code can raise:
`exception` is `Exception(message)` raised explicitly by the session code,
`indexError` models `list[0]` on an empty list, `attributeError` models an
attribute access on `None`, `unboundLocalError` models reading a local
variable that was never assigned, and `validationError` models the
pending-edit entity rejecting a cell update. -/
inductive PyErr where
  | exception : Option String → PyErr
  | indexError : PyErr
  | attributeError : PyErr
  | unboundLocalError : PyErr
  | validationError : String → PyErr
deriving DecidableEq

/-- One cell of a materialized result row: `cell.display_value` in the source. -/
structure DbCell where
  display_value : String
deriving DecidableEq

/-- An authoritative column descriptor carried by the result set
(`result_set.columns` in the source). -/
structure DbColumn where
  name : String
deriving DecidableEq

/-- The external `ResultSet`: an ordered sequence of rows (each an ordered
sequence of cells) plus authoritative column descriptors. -/
structure ResultSet where
  rows : List (List DbCell)
  columns : List DbColumn
deriving DecidableEq

/-- `result_set.row_count`. -/
def ResultSet.row_count (rs : ResultSet) : Nat :=
  rs.rows.length

/-- `pgsqltoolsservice.query_execution.query.ExecutionState`; the session only
distinguishes `EXECUTED` from everything else. -/
inductive ExecutionState where
  | NOT_STARTED
  | EXECUTING
  | EXECUTED
deriving DecidableEq

/-- A batch of an executed query: `query.batches[i].result_set`. -/
structure Batch where
  result_set : ResultSet
deriving DecidableEq

/-- The executed query object handed back by the query executor. -/
structure Query where
  execution_state : ExecutionState
  batches : List Batch
deriving DecidableEq

/-- `DataEditSessionExecutionState` from the source: either a query object or
an error message with a null query. -/
structure DataEditSessionExecutionState where
  query : Option Query
  message : Option String
deriving DecidableEq

/-- One column descriptor of the table metadata (`column.escaped_name`). -/
structure ColumnMetadata where
  escaped_name : String
deriving DecidableEq

/-- The external `EditTableMetadata`: ordered column descriptors, the
schema-qualified escaped table name, and the authoritative result columns
recorded by `extend`. -/
structure EditTableMetadata where
  column_metadata : List ColumnMetadata
  escaped_multipart_name : String
  result_columns : List DbColumn
deriving DecidableEq

/-- Modelled from the spec: `EditTableMetadata.extend` records the result
set's authoritative column descriptors on the metadata ("extend table
metadata with the result set's authoritative columns"); the method itself
lives outside the translated source file. -/
def EditTableMetadata.extend (m : EditTableMetadata) (cols : List DbColumn) :
    EditTableMetadata :=
  { m with result_columns := cols }

/-- The transport view of one cell: display value plus dirty flag. -/
structure EditCell where
  display_value : String
  is_dirty : Bool
deriving DecidableEq

/-- The transport view of one row: row identifier plus cells. -/
structure EditRow where
  row_id : Int
  cells : List EditCell
deriving DecidableEq

/-- The structured result of a cell update (`EditCellResponse`). -/
structure EditCellResponse where
  cell : EditCell
  is_row_dirty : Bool
deriving DecidableEq

/-- Python `dict` lookup on an association list keyed by `Int`
(`d.get(k)` returning `None` when absent). -/
def dictGet {α : Type} : List (Int × α) → Int → Option α
  | [], _ => none
  | (k2, v) :: rest, k => if k2 = k then some v else dictGet rest k

/-- Python `dict` assignment `d[k] = v`: replaces the value at an existing
key in place, otherwise appends a fresh entry. -/
def dictSet {α : Type} : List (Int × α) → Int → α → List (Int × α)
  | [], k, v => [(k, v)]
  | (k2, v2) :: rest, k, v =>
      if k2 = k then (k, v) :: rest else (k2, v2) :: dictSet rest k v

/-- The keys of a `dict` in insertion order. -/
def dictKeys {α : Type} : List (Int × α) → List Int
  | [] => []
  | (k, _) :: rest => k :: dictKeys rest

/-- Modelled from the spec: the pending-edit "update" entity (`RowUpdate`
from `edit_data.update_management`, outside the translated source file). It is
"bound to that row, the session's result set, and table metadata" and holds,
per column index, the new display value. -/
structure RowUpdate where
  row_id : Int
  result_set : Option ResultSet
  table_metadata : Option EditTableMetadata
  cell_updates : List (Int × String)
deriving DecidableEq

/-- Modelled from the spec: `RowUpdate.set_cell_value(columnIndex, value)`
"validates the column index against metadata bounds ... and returns a
structured result describing the new display value and dirty state".
With no table metadata bound (uninitialized session) the validation
dereferences `None`, an attribute error. -/
def RowUpdate.set_cell_value (er : RowUpdate) (column_index : Int)
    (new_value : String) : Except PyErr (RowUpdate × EditCellResponse) :=
  match er.table_metadata with
  | none => .error .attributeError
  | some m =>
      if 0 ≤ column_index ∧ column_index < (m.column_metadata.length : Int) then
        .ok ({ er with cell_updates := dictSet er.cell_updates column_index new_value },
             { cell := { display_value := new_value, is_dirty := true },
               is_row_dirty := true })
      else
        .error (.validationError "column index out of range")

/-- Modelled from the spec: `RowUpdate.get_edit_row(originalRow)` renders the
merged view: the new value with dirty=true on each edited column, the given
row's original display value with dirty=false elsewhere. -/
def RowUpdate.get_edit_row (er : RowUpdate) (row : List DbCell) : EditRow :=
  { row_id := er.row_id,
    cells := row.mapIdx fun i cell =>
      match dictGet er.cell_updates (i : Int) with
      | some v => { display_value := v, is_dirty := true }
      | none => { display_value := cell.display_value, is_dirty := false } }

/-- Modelled from the spec: `ResultSetSubset.from_result_set(rs, start, end)`
takes the row window `[start, end)` from the result set, clamping the end
bound ("external collaborator clamps/interprets the end bound"). -/
def ResultSetSubset.from_result_set (rs : ResultSet) (start_index end_index : Nat) :
    List (List DbCell) :=
  (rs.rows.take end_index).drop start_index

/-- The filter object of `InitializeEditParams`: `filters.limit_results`. -/
structure EditInitializerFilter where
  limit_results : Option Int
deriving DecidableEq

/-- `InitializeEditParams`: the identity of the object to edit plus filters. -/
structure InitializeEditParams where
  schema_name : String
  object_name : String
  object_type : String
  filters : EditInitializerFilter
deriving DecidableEq

/-- `psycopg2.sql.Identifier(s).as_string(conn)`: the string rendered as a
safely quoted SQL identifier. -/
def quoteIdent (s : String) : String :=
  "\"" ++ s ++ "\""

/-- The mutable state of `DataEditorSession` as set up by `__init__`. -/
structure DataEditorSession where
  session_cache : List (Int × RowUpdate)
  next_row_id : Option Int
  is_initialized : Bool
  result_set : Option ResultSet
  table_metadata : Option EditTableMetadata
deriving DecidableEq

/-- `DataEditorSession.__init__`: empty cache, no next row id, not
initialized, no result set, no table metadata. -/
def DataEditorSession.new : DataEditorSession :=
  { session_cache := []
    next_row_id := none
    is_initialized := false
    result_set := none
    table_metadata := none }

/-- `DataEditorSession._construct_initialize_query`, translated exactly:
`limit_clause` is assigned only inside the branch
`filters.limit_results is not None and filters.limit_results > 0`, yet it is
always read when formatting the query, so any other filter value raises
`UnboundLocalError`. The formatted text is
`SELECT {cols} FROM {table} {limit_clause}` with the columns quoted and
joined by `, ` and the multipart name quoted as a single identifier. -/
def construct_initialize_query (metadata : EditTableMetadata)
    (filters : EditInitializerFilter) : Except PyErr String :=
  let column_names := metadata.column_metadata.map fun c => quoteIdent c.escaped_name
  let limit_clause : Option String :=
    match filters.limit_results with
    | some n => if 0 < n then some (" ".intercalate [" LIMIT", toString n]) else none
    | none => none
  match limit_clause with
  | none => .error .unboundLocalError
  | some lc =>
      .ok ("SELECT " ++ ", ".intercalate column_names ++ " FROM " ++
           quoteIdent metadata.escaped_multipart_name ++ " " ++ lc)

/-- A recorded invocation of one of the caller's callbacks: `on_success()`
or `on_failure(err)`. -/
inductive CallEvent where
  | success : CallEvent
  | failure : PyErr → CallEvent
deriving DecidableEq

/-- `DataEditorSession.on_query_execution_complete`, translated exactly. The
`try` body raises on a null query, on a query not in the `EXECUTED` state
(`_validate_query_for_session`), on `batches[0]` of an empty batch list, and
on `self.table_metadata.extend` when the metadata is `None`; every raise is
caught and delivered as `on_failure(err)`. Assignments performed before a
raise persist, as in Python. `on_success_result` is the outcome of the
caller-supplied `on_success()` callback: if it raises, the surrounding
`except` also invokes `on_failure` with that error. The returned list records
the callback invocations in order. -/
def on_query_execution_complete (st : DataEditorSession)
    (es : DataEditSessionExecutionState) (on_success_result : Except PyErr Unit) :
    DataEditorSession × List CallEvent :=
  match es.query with
  | none => (st, [CallEvent.failure (PyErr.exception es.message)])
  | some q =>
      if q.execution_state = ExecutionState.EXECUTED then
        match q.batches with
        | [] => (st, [CallEvent.failure PyErr.indexError])
        | b :: _ =>
            match st.table_metadata with
            | none =>
                ({ st with
                    result_set := some b.result_set
                    next_row_id := some (b.result_set.row_count : Int)
                    is_initialized := true },
                 [CallEvent.failure PyErr.attributeError])
            | some m =>
                let st2 : DataEditorSession :=
                  { st with
                      result_set := some b.result_set
                      next_row_id := some (b.result_set.row_count : Int)
                      is_initialized := true
                      table_metadata := some (m.extend b.result_set.columns) }
                match on_success_result with
                | .ok _ => (st2, [CallEvent.success])
                | .error e => (st2, [CallEvent.success, CallEvent.failure e])
      else
        (st, [CallEvent.failure (PyErr.exception (some "Execution not completed"))])

/-- `DataEditorSession.initialize`: resolves table metadata through the
injected factory (its outcome is the `factory_result` argument; a raise
propagates synchronously, uncaught), stores it on the session, then builds
the initialization query to hand to the executor. The returned state keeps
the metadata assignment even when the query builder raises, as in Python. -/
def DataEditorSession.initialize (st : DataEditorSession)
    (params : InitializeEditParams)
    (factory_result : Except PyErr EditTableMetadata) :
    DataEditorSession × Except PyErr String :=
  match factory_result with
  | .error e => (st, .error e)
  | .ok m =>
      let st1 := { st with table_metadata := some m }
      match construct_initialize_query m params.filters with
      | .error e => (st1, .error e)
      | .ok q => (st1, .ok q)

/-- `DataEditorSession.update_cell`, translated exactly: look up `row_id` in
the session cache; if absent, create a `RowUpdate` bound to the current
result set and table metadata and insert it; then delegate to
`set_cell_value`. No check of `row_id` and no readiness check is performed.
If the delegate raises, the exception propagates but the inserted cache
entry remains, as in Python. -/
def DataEditorSession.update_cell (st : DataEditorSession) (row_id : Int)
    (column_index : Int) (new_value : String) :
    DataEditorSession × Except PyErr EditCellResponse :=
  match dictGet st.session_cache row_id with
  | some edit_row =>
      match edit_row.set_cell_value column_index new_value with
      | .ok (er1, result) =>
          ({ st with session_cache := dictSet st.session_cache row_id er1 }, .ok result)
      | .error e => (st, .error e)
  | none =>
      let edit_row : RowUpdate :=
        { row_id := row_id
          result_set := st.result_set
          table_metadata := st.table_metadata
          cell_updates := [] }
      match edit_row.set_cell_value column_index new_value with
      | .ok (er1, result) =>
          ({ st with
              session_cache := dictSet (dictSet st.session_cache row_id edit_row) row_id er1 },
           .ok result)
      | .error e =>
          ({ st with session_cache := dictSet st.session_cache row_id edit_row }, .error e)

/-- The pending-edit entity `update_cell` operates on: the cached entry for
`row_id` when one exists, otherwise the fresh `RowUpdate` the source
constructs and inserts. Used to state that `update_cell` delegates the cell
mutation unchanged. -/
def cached_or_new (st : DataEditorSession) (row_id : Int) : RowUpdate :=
  match dictGet st.session_cache row_id with
  | some edit_row => edit_row
  | none =>
      { row_id := row_id
        result_set := st.result_set
        table_metadata := st.table_metadata
        cell_updates := [] }

/-- `DataEditorSession.get_rows`, translated exactly: dereferencing
`self._result_set.row_count` on an uninitialized session is an attribute
error; when `start_index < row_count` the window is taken by
`ResultSetSubset.from_result_set`, otherwise it is empty; each window row at
offset `i` gets the absolute identifier `start_index + i`; a cached pending
edit renders through `cache.get_edit_row(subset.rows[0])` — note the source
passes the first row of the window, not the current row — and an uncached
row renders every cell as the original display value with dirty=false. -/
def DataEditorSession.get_rows (st : DataEditorSession) (owner_uri : String)
    (start_index end_index : Nat) : Except PyErr (List EditRow) :=
  match st.result_set with
  | none => .error .attributeError
  | some rs =>
      let subset_rows : List (List DbCell) :=
        if start_index < rs.row_count then
          ResultSetSubset.from_result_set rs start_index end_index
        else []
      .ok (subset_rows.mapIdx fun i row =>
        let row_id : Int := (start_index : Int) + (i : Int)
        match dictGet st.session_cache row_id with
        | some cache => cache.get_edit_row (subset_rows.headD row)
        | none =>
            { row_id := row_id
              cells := row.map fun c =>
                { display_value := c.display_value, is_dirty := false } })

/-! ### Concrete sample data used by counterexamples and witnesses -/

/-- A two-column table metadata value (columns `id`, `name`, table `public.t`). -/
def sampleMetadata : EditTableMetadata :=
  { column_metadata := [{ escaped_name := "id" }, { escaped_name := "name" }]
    escaped_multipart_name := "public.t"
    result_columns := [] }

/-- A two-row, two-column result set. -/
def rsTwoRows : ResultSet :=
  { rows := [[{ display_value := "a1" }, { display_value := "a2" }],
             [{ display_value := "b1" }, { display_value := "b2" }]]
    columns := [{ name := "c1" }, { name := "c2" }] }

/-- A session that has completed a successful initialize over `rsTwoRows`. -/
def readySession : DataEditorSession :=
  { session_cache := []
    next_row_id := some 2
    is_initialized := true
    result_set := some rsTwoRows
    table_metadata := some sampleMetadata }

/-- An execution state carrying a fully executed query with one batch. -/
def execStateOk : DataEditSessionExecutionState :=
  { query := some { execution_state := ExecutionState.EXECUTED
                    batches := [{ result_set := rsTwoRows }] }
    message := none }

/-! ### Dictionary helper lemmas -/

theorem dictGet_dictSet_self {α : Type} (d : List (Int × α)) (k : Int) (v : α) :
    dictGet (dictSet d k v) k = some v := by
  induction d with
  | nil => simp [dictSet, dictGet]
  | cons hd tl ih =>
      obtain ⟨k2, v2⟩ := hd
      by_cases h : k2 = k <;> simp [dictSet, dictGet, h, ih]

theorem dictGet_ne_none_iff_mem {α : Type} (d : List (Int × α)) (k : Int) :
    dictGet d k ≠ none ↔ k ∈ dictKeys d := by
  induction d with
  | nil => simp [dictGet, dictKeys]
  | cons hd tl ih =>
      obtain ⟨k2, v2⟩ := hd
      by_cases h : k2 = k
      · subst h; simp [dictGet, dictKeys]
      · simp [dictGet, dictKeys, h, ih, Ne.symm h]

theorem dictKeys_dictSet {α : Type} (d : List (Int × α)) (k : Int) (v : α) :
    dictKeys (dictSet d k v) =
      if k ∈ dictKeys d then dictKeys d else dictKeys d ++ [k] := by
  induction d with
  | nil => simp [dictSet, dictKeys]
  | cons hd tl ih =>
      obtain ⟨k2, v2⟩ := hd
      by_cases h : k2 = k
      · subst h; simp [dictSet, dictKeys]
      · by_cases hm : k ∈ dictKeys tl <;>
          simp [dictSet, dictKeys, h, Ne.symm h, hm, ih]

/-- The cache keys after `update_cell`: unchanged when `row_id` was already
cached, otherwise exactly one fresh entry appended. -/
theorem update_cell_cache_keys (st : DataEditorSession) (rid ci : Int) (v : String) :
    dictKeys (st.update_cell rid ci v).1.session_cache =
      if rid ∈ dictKeys st.session_cache then dictKeys st.session_cache
      else dictKeys st.session_cache ++ [rid] := by
  unfold DataEditorSession.update_cell
  cases hget : dictGet st.session_cache rid with
  | some er =>
      have hmem : rid ∈ dictKeys st.session_cache :=
        (dictGet_ne_none_iff_mem _ _).1 (by simp [hget])
      cases hres : er.set_cell_value ci v with
      | ok p => simp [hres, dictKeys_dictSet, hmem]
      | error e => simp [hres, hmem]
  | none =>
      have hmem : rid ∉ dictKeys st.session_cache := by
        intro hc
        exact absurd hget (by simpa using (dictGet_ne_none_iff_mem st.session_cache rid).2 hc)
      cases hres : (RowUpdate.set_cell_value
          { row_id := rid, result_set := st.result_set,
            table_metadata := st.table_metadata, cell_updates := [] } ci v) with
      | ok p => simp [hres, dictKeys_dictSet, hmem]
      | error e => simp [hres, dictKeys_dictSet, hmem]

/-- After any `update_cell`, the cache holds an entry for the requested row
identifier. -/
theorem update_cell_cache_mem (st : DataEditorSession) (rid ci : Int) (v : String) :
    dictGet (st.update_cell rid ci v).1.session_cache rid ≠ none := by
  rw [dictGet_ne_none_iff_mem, update_cell_cache_keys]
  by_cases h : rid ∈ dictKeys st.session_cache <;> simp [h]

/-! ### Claim theorems -/

/-- C1: the claim says the query builder emits `LIMIT n` exactly for positive
`limit_results` and otherwise returns the plain SELECT without failing. The
source only assigns `limit_clause` in the positive branch yet always reads
it, so for `limit_results = None` (and for non-positive values) the builder
raises `UnboundLocalError` instead of returning a query; with a positive
limit the query does end in ` LIMIT n`. This theorem evaluates the builder at
those inputs. -/
theorem c1_limit_clause_unbound_local :
    construct_initialize_query sampleMetadata { limit_results := none } =
        .error .unboundLocalError ∧
    construct_initialize_query sampleMetadata { limit_results := some 0 } =
        .error .unboundLocalError ∧
    construct_initialize_query sampleMetadata { limit_results := some (-3) } =
        .error .unboundLocalError ∧
    construct_initialize_query sampleMetadata { limit_results := some 10 } =
        .ok "SELECT \"id\", \"name\" FROM \"public.t\"  LIMIT 10" :=
  ⟨rfl, rfl, rfl, rfl⟩

/-- C2 counterexample: the claim says `update_cell` on a session that has not
completed a successful initialize is rejected fast with a state error rather
than proceeding against the uninitialized state. On the fresh session the
source performs no readiness check: it proceeds and inserts a pending-edit
entry into the session cache, so the cache is no longer empty. -/
theorem c2_counterexample_update_cell_proceeds :
    (DataEditorSession.new.update_cell 0 0 "x").1.session_cache ≠ [] := by
  decide

/-- C2 amended: on any session whose result set has not been adopted,
`get_rows` fails with an attribute error arising from dereferencing the
absent result set (not from a deliberate readiness check), while
`update_cell` is not rejected up front: it mutates the session cache,
leaving an entry for the requested row identifier. -/
theorem c2_uninitialized_session_behavior (st : DataEditorSession)
    (u : String) (s e : Nat) (rid ci : Int) (v : String)
    (h : st.result_set = none) :
    st.get_rows u s e = .error .attributeError ∧
    dictGet (st.update_cell rid ci v).1.session_cache rid ≠ none := by
  constructor
  · simp [DataEditorSession.get_rows, h]
  · exact update_cell_cache_mem st rid ci v

/-- C2 witness: the amended statement evaluated on the fresh session. -/
theorem c2_uninitialized_session_behavior_witness :
    DataEditorSession.new.get_rows "uri" 0 2 = .error .attributeError ∧
    dictGet (DataEditorSession.new.update_cell 0 0 "x").1.session_cache 0 ≠ none :=
  c2_uninitialized_session_behavior DataEditorSession.new "uri" 0 2 0 0 "x" rfl

/-- C3: the claim says a row whose identifier has a pending edit is rendered
from that row's own original row. The source instead passes
`subset.rows[0]` — the first row of the retrieved window — to
`get_edit_row`, so after editing column 1 of row 1 to `B`, `get_rows 0 2`
renders row 1's unedited column 0 with row 0's value `a1` instead of row 1's
own original value `b1`. This theorem evaluates the session at that failing
input. -/
theorem c3_get_rows_passes_first_window_row :
    ((readySession.update_cell 1 1 "B").1.get_rows "uri" 0 2) =
      .ok [{ row_id := 0,
             cells := [{ display_value := "a1", is_dirty := false },
                       { display_value := "a2", is_dirty := false }] },
           { row_id := 1,
             cells := [{ display_value := "a1", is_dirty := false },
                       { display_value := "B", is_dirty := true }] }] := by
  rfl

/-- C4: when the completion callback fails — null query, query not in the
executed state, or an error raised during adoption (`batches[0]` on an empty
batch list) — `on_failure` is invoked exactly once, `on_success` is never
invoked, and the session state is returned unchanged: no result set is
adopted, the next-row-identifier is untouched, and the initialized flag
keeps its prior (false) value. -/
theorem c4_failure_no_partial_adoption (st : DataEditorSession)
    (es : DataEditSessionExecutionState) (o : Except PyErr Unit)
    (h : es.query = none ∨ ∃ q, es.query = some q ∧
          (q.execution_state ≠ ExecutionState.EXECUTED ∨ q.batches = [])) :
    (on_query_execution_complete st es o).1 = st ∧
    ∃ err, (on_query_execution_complete st es o).2 = [CallEvent.failure err] := by
  rcases h with h | ⟨q, hq, hcase⟩
  · exact ⟨by simp [on_query_execution_complete, h],
           PyErr.exception es.message, by simp [on_query_execution_complete, h]⟩
  · rcases hcase with hne | hb
    · exact ⟨by simp [on_query_execution_complete, hq, hne],
             PyErr.exception (some "Execution not completed"),
             by simp [on_query_execution_complete, hq, hne]⟩
    · by_cases hex : q.execution_state = ExecutionState.EXECUTED
      · exact ⟨by simp [on_query_execution_complete, hq, hex, hb],
               PyErr.indexError, by simp [on_query_execution_complete, hq, hex, hb]⟩
      · exact ⟨by simp [on_query_execution_complete, hq, hex],
               PyErr.exception (some "Execution not completed"),
               by simp [on_query_execution_complete, hq, hex]⟩

/-- C4 witness: a completion carrying a null query leaves the fresh session
unchanged and produces a single failure callback. -/
theorem c4_failure_no_partial_adoption_witness :
    (on_query_execution_complete DataEditorSession.new
        { query := none, message := some "boom" } (.ok ())).1 = DataEditorSession.new ∧
    ∃ err, (on_query_execution_complete DataEditorSession.new
        { query := none, message := some "boom" } (.ok ())).2 = [CallEvent.failure err] :=
  c4_failure_no_partial_adoption DataEditorSession.new
    { query := none, message := some "boom" } (.ok ()) (Or.inl rfl)

/-- C5 counterexample: the claim says `on_success` and `on_failure` are never
both invoked during one completion-callback invocation. The source calls
`on_success()` inside the `try` block, so when the caller's `on_success`
itself raises, the surrounding `except` also invokes `on_failure` with that
error: both callbacks run in a single invocation. -/
theorem c5_counterexample_both_callbacks_invoked :
    (on_query_execution_complete readySession execStateOk
        (.error (.exception (some "callback boom")))).2 =
      [CallEvent.success, CallEvent.failure (.exception (some "callback boom"))] := by
  rfl

/-- C5 amended: provided the caller's `on_success` callback returns normally,
each completion-callback invocation invokes exactly one of the two callbacks
exactly once — either a single `on_success` or a single `on_failure`, never
both and never zero; if `on_success` itself raises, `on_failure` is
additionally invoked once with that error. -/
theorem c5_callbacks_exclusive_when_on_success_returns (st : DataEditorSession)
    (es : DataEditSessionExecutionState) :
    (on_query_execution_complete st es (.ok ())).2 = [CallEvent.success] ∨
    ∃ e, (on_query_execution_complete st es (.ok ())).2 = [CallEvent.failure e] := by
  cases hq : es.query with
  | none =>
      exact Or.inr ⟨PyErr.exception es.message, by simp [on_query_execution_complete, hq]⟩
  | some q =>
      by_cases hex : q.execution_state = ExecutionState.EXECUTED
      · cases hb : q.batches with
        | nil =>
            exact Or.inr ⟨PyErr.indexError, by simp [on_query_execution_complete, hq, hex, hb]⟩
        | cons b rest =>
            cases hm : st.table_metadata with
            | none =>
                exact Or.inr ⟨PyErr.attributeError,
                  by simp [on_query_execution_complete, hq, hex, hb, hm]⟩
            | some m =>
                exact Or.inl (by simp [on_query_execution_complete, hq, hex, hb, hm])
      · exact Or.inr ⟨PyErr.exception (some "Execution not completed"),
          by simp [on_query_execution_complete, hq, hex]⟩

/-- C6: a failure of the metadata factory propagates synchronously out of
`initialize` (returned uncaught, the session untouched, no callback ever
invoked for it), while execution failures — a null query or a query not in
the executed state — are delivered exclusively as a single `on_failure`
callback by the completion handler, which itself returns normally. -/
theorem c6_error_propagation_policy (st : DataEditorSession)
    (params : InitializeEditParams) (e : PyErr)
    (es : DataEditSessionExecutionState) (o : Except PyErr Unit)
    (hq : es.query = none ∨
          ∃ q, es.query = some q ∧ q.execution_state ≠ ExecutionState.EXECUTED) :
    st.initialize params (.error e) = (st, .error e) ∧
    ∃ err, (on_query_execution_complete st es o).2 = [CallEvent.failure err] := by
  refine ⟨rfl, ?_⟩
  rcases hq with h | ⟨q, hq, hne⟩
  · exact ⟨PyErr.exception es.message, by simp [on_query_execution_complete, h]⟩
  · exact ⟨PyErr.exception (some "Execution not completed"),
      by simp [on_query_execution_complete, hq, hne]⟩

/-- C6 witness: a factory error propagates out of `initialize` on the fresh
session, and a completion carrying a not-yet-executed query produces a
single failure callback. -/
theorem c6_error_propagation_policy_witness :
    DataEditorSession.new.initialize
        { schema_name := "public", object_name := "t", object_type := "TABLE",
          filters := { limit_results := none } }
        (.error (.exception (some "not found"))) =
      (DataEditorSession.new, .error (.exception (some "not found"))) ∧
    ∃ err, (on_query_execution_complete DataEditorSession.new
        { query := some { execution_state := ExecutionState.EXECUTING, batches := [] },
          message := none } (.ok ())).2 = [CallEvent.failure err] :=
  c6_error_propagation_policy DataEditorSession.new
    { schema_name := "public", object_name := "t", object_type := "TABLE",
      filters := { limit_results := none } }
    (.exception (some "not found"))
    { query := some { execution_state := ExecutionState.EXECUTING, batches := [] },
      message := none } (.ok ())
    (Or.inr ⟨_, rfl, by simp⟩)

/-- C7: a completion invocation carrying a non-null query in the executed
state (with its first batch) adopts the first batch's result set, sets the
next-row-identifier to the result set's row count, marks the session
initialized, extends the table metadata with the result set's columns, and
invokes `on_success` exactly once. -/
theorem c7_successful_adoption (st : DataEditorSession)
    (es : DataEditSessionExecutionState) (q : Query) (b : Batch)
    (rest : List Batch) (m : EditTableMetadata)
    (hq : es.query = some q) (hex : q.execution_state = ExecutionState.EXECUTED)
    (hb : q.batches = b :: rest) (hm : st.table_metadata = some m) :
    on_query_execution_complete st es (.ok ()) =
      ({ st with
          result_set := some b.result_set
          next_row_id := some (b.result_set.row_count : Int)
          is_initialized := true
          table_metadata := some (m.extend b.result_set.columns) },
       [CallEvent.success]) := by
  simp [on_query_execution_complete, hq, hex, hb, hm]

/-- C7 witness: the successful adoption evaluated on a session holding the
sample metadata and a completion carrying the executed sample query. -/
theorem c7_successful_adoption_witness :
    on_query_execution_complete
        { DataEditorSession.new with table_metadata := some sampleMetadata }
        execStateOk (.ok ()) =
      ({ DataEditorSession.new with
          result_set := some rsTwoRows
          next_row_id := some 2
          is_initialized := true
          table_metadata := some (sampleMetadata.extend rsTwoRows.columns) },
       [CallEvent.success]) :=
  c7_successful_adoption
    { DataEditorSession.new with table_metadata := some sampleMetadata }
    execStateOk _ _ _ _ rfl rfl rfl rfl

/-- C8: starting from a cache whose keys are duplicate-free, two successive
`update_cell` calls with the same row identifier keep the keys
duplicate-free, the second call adds no key beyond the first (it operates on
the entry the first call produced), the cache holds exactly one entry for
that row identifier, and no previously cached key is ever removed. -/
theorem c8_cache_at_most_one_entry_per_row (st st1 st2 : DataEditorSession)
    (rid ci1 ci2 : Int) (v1 v2 : String)
    (hnd : (dictKeys st.session_cache).Nodup)
    (h1 : st1 = (st.update_cell rid ci1 v1).1)
    (h2 : st2 = (st1.update_cell rid ci2 v2).1) :
    (dictKeys st2.session_cache).Nodup ∧
    dictKeys st2.session_cache = dictKeys st1.session_cache ∧
    (dictKeys st2.session_cache).count rid = 1 ∧
    ∀ k, k ∈ dictKeys st.session_cache → k ∈ dictKeys st2.session_cache := by
  subst h1 h2
  have hk1 : dictKeys (st.update_cell rid ci1 v1).1.session_cache =
      if rid ∈ dictKeys st.session_cache then dictKeys st.session_cache
      else dictKeys st.session_cache ++ [rid] := update_cell_cache_keys st rid ci1 v1
  have hmem1 : rid ∈ dictKeys (st.update_cell rid ci1 v1).1.session_cache := by
    rw [hk1]; by_cases h : rid ∈ dictKeys st.session_cache <;> simp [h]
  have hnd1 : (dictKeys (st.update_cell rid ci1 v1).1.session_cache).Nodup := by
    rw [hk1]
    by_cases h : rid ∈ dictKeys st.session_cache
    · simpa [h] using hnd
    · simp only [h, if_false]
      exact List.Nodup.append hnd (List.nodup_singleton rid)
        (by simpa [List.disjoint_singleton] using h)
  have hk2 : dictKeys ((st.update_cell rid ci1 v1).1.update_cell rid ci2 v2).1.session_cache =
      dictKeys (st.update_cell rid ci1 v1).1.session_cache := by
    rw [update_cell_cache_keys, if_pos hmem1]
  refine ⟨hk2 ▸ hnd1, hk2, ?_, ?_⟩
  · rw [hk2]
    exact List.count_eq_one_of_mem hnd1 hmem1
  · intro k hk
    rw [hk2, hk1]
    by_cases h : rid ∈ dictKeys st.session_cache <;> simp [h, hk]

/-- C8 witness: two updates of row 0 on the ready session. -/
theorem c8_cache_at_most_one_entry_per_row_witness :
    (dictKeys ((readySession.update_cell 0 0 "x").1.update_cell 0 1 "y").1.session_cache).Nodup ∧
    dictKeys ((readySession.update_cell 0 0 "x").1.update_cell 0 1 "y").1.session_cache =
      dictKeys (readySession.update_cell 0 0 "x").1.session_cache ∧
    (dictKeys ((readySession.update_cell 0 0 "x").1.update_cell 0 1 "y").1.session_cache).count 0 = 1 ∧
    ∀ k, k ∈ dictKeys readySession.session_cache →
      k ∈ dictKeys ((readySession.update_cell 0 0 "x").1.update_cell 0 1 "y").1.session_cache :=
  c8_cache_at_most_one_entry_per_row readySession
    (readySession.update_cell 0 0 "x").1
    ((readySession.update_cell 0 0 "x").1.update_cell 0 1 "y").1
    0 0 1 "x" "y" (by simp [readySession, dictKeys]) rfl rfl

/-- C9: on an initialized session, `get_rows` with a start index at or beyond
the result set's row count returns an empty sequence of edit rows and raises
no error. -/
theorem c9_get_rows_start_beyond_row_count (st : DataEditorSession)
    (rs : ResultSet) (u : String) (s e : Nat)
    (h1 : st.result_set = some rs) (h2 : rs.row_count ≤ s) :
    st.get_rows u s e = .ok [] := by
  simp [DataEditorSession.get_rows, h1, Nat.not_lt.mpr h2]

/-- C9 witness: the ready session over two rows, queried from start index 5. -/
theorem c9_get_rows_start_beyond_row_count_witness :
    readySession.get_rows "uri" 5 9 = .ok [] :=
  c9_get_rows_start_beyond_row_count readySession rsTwoRows "uri" 5 9 rfl (by decide)

/-- C10: `update_cell` performs no validation of the row identifier: for
every integer `row_id` — negative or at or beyond the row count included —
the resulting cache holds an entry keyed by that identifier, and the
returned result is exactly the pending-edit entity's own `set_cell_value`
outcome, so cache entries can exist for identifiers naming no row of the
result set. -/
theorem c10_update_cell_no_row_id_validation (st : DataEditorSession)
    (rid ci : Int) (v : String) :
    dictGet (st.update_cell rid ci v).1.session_cache rid ≠ none ∧
    (st.update_cell rid ci v).2 =
      Except.map Prod.snd ((cached_or_new st rid).set_cell_value ci v) := by
  refine ⟨update_cell_cache_mem st rid ci v, ?_⟩
  unfold DataEditorSession.update_cell cached_or_new
  cases hget : dictGet st.session_cache rid with
  | some er =>
      cases hres : er.set_cell_value ci v with
      | ok p =>
          obtain ⟨er1, resp⟩ := p
          simp [hres, Except.map]
      | error e => simp [hres, Except.map]
  | none =>
      cases hres : (RowUpdate.set_cell_value
          { row_id := rid, result_set := st.result_set,
            table_metadata := st.table_metadata, cell_updates := [] } ci v) with
      | ok p =>
          obtain ⟨er1, resp⟩ := p
          simp [hres, Except.map]
      | error e => simp [hres, Except.map]

end PgEdit
